import Mathlib

/-!
# Verification of the Taurus Discord admin bot (`src/main.py`)

Shallow embedding of the pure decision logic of `main.py`:
whitelist management, the authorization predicates, the DataStore ban
commands (`banid`, `unban`, `banlist`) and the username-resolution helper.

Effectful Python functions are embedded as Lean functions that take the
responses of the remote HTTP endpoints as explicit arguments (the
environment) and return the value the Python function would compute,
together with the payload it would send where a claim is about that
payload.  Exceptions that the Python code catches are represented by the
corresponding constructor of the response type; code paths on which the
Python code returns normally are total Lean functions.
-/

namespace Taurus

/-! ## Constants (`main.py` lines 29-31) -/

def EMBED_COLOR_SUCCESS : Nat := 0x00FF00
def EMBED_COLOR_ERROR : Nat := 0xFF0000
def EMBED_COLOR_INFO : Nat := 0x00BFFF

/-! ## Python primitives

`pyIsdigit` models `str.isdigit` (restricted to ASCII digits, the only
inputs the claims exercise); `pyInt` models `int(s)` on a string that
passed `isdigit`. -/

def pyIsdigit (s : String) : Bool := !s.data.isEmpty && s.data.all Char.isDigit

def pyInt (s : String) : Nat :=
  s.data.foldl (fun n c => n * 10 + (c.toNat - 48)) 0

/-! ## HTTP response modelling

`requests` exceptions carry an optional response; the code only ever
inspects its status code. `raiseForStatus` models
`Response.raise_for_status`, which raises exactly on 4xx/5xx. -/

structure HttpResp where
  status : Nat
deriving Repr, DecidableEq

structure ReqError where
  response : Option HttpResp
deriving Repr, DecidableEq

def raiseForStatus (status : Nat) : Bool := 400 ≤ status && status < 600

/-- `e.response is not None and e.response.status_code == 403` -/
def is403 (e : ReqError) : Bool :=
  match e.response with
  | some r => r.status = 403
  | none => false

/-- A user-facing embed, reduced to the fields the claims are about. -/
structure EmbedOut where
  title : String
  description : String
  color : Nat
deriving Repr, DecidableEq

/-! ## Whitelist management (`main.py` lines 40-49, 65-83, 169-224) -/

/-- A JSON value, as returned by `json.loads`. -/
inductive JVal where
  | null
  | bool (b : Bool)
  | num (n : Int)
  | str (s : String)
  | arr (xs : List JVal)
  | obj (kvs : List (String × JVal))
deriving Repr

/-- `load_whitelist` (lines 40-49).  The file system is modelled by
`file : Option String` (`none` = the file does not exist, matching the
`os.path.exists` check) and `json.loads` by `jsonLoads` (`none` =
`JSONDecodeError`, which the code catches).  Every caught exception
corresponds to a branch returning `.arr []`, so the embedding is total:
the function never raises on those inputs. -/
def load_whitelist (file : Option String) (jsonLoads : String → Option JVal) : JVal :=
  match file with
  | none => .arr []
  | some content =>
    if content.isEmpty then .arr []
    else
      match jsonLoads content with
      | none => .arr []
      | some v => v

/-- The predicate inside `is_whitelisted` (lines 65-73):
`interaction.user.id == BOT_OWNER_ID or interaction.user.id in whitelisted_users`. -/
def is_whitelisted_check (ownerId callerId : Int) (users : List Int) : Bool :=
  callerId = ownerId || users.contains callerId

/-- The predicate inside `is_bot_owner` (lines 75-83). -/
def is_bot_owner_check (ownerId callerId : Int) : Bool :=
  callerId = ownerId

/-- Result of one `manage_whitelist` invocation: the new in-memory list,
whether `save_whitelist` was called, and the reply embed fields. -/
structure WhitelistResult where
  users : List Int
  saved : Bool
  title : String
  description : String
  color : Nat
deriving Repr

/-- `manage_whitelist` (lines 169-224), minus the Discord plumbing.
`user_id = none` models the parameter default `None`. -/
def manage_whitelist (ownerId : Int) (users : List Int) (action : String)
    (user_id : Option String) : WhitelistResult :=
  if action = "add" then
    match user_id with
    | none => ⟨users, false, "Whitelist Management",
        "Invalid or missing User ID for 'add' action.", EMBED_COLOR_ERROR⟩
    | some s =>
      if !pyIsdigit s then
        ⟨users, false, "Whitelist Management",
          "Invalid or missing User ID for 'add' action.", EMBED_COLOR_ERROR⟩
      else
        let n : Int := (pyInt s : Nat)
        if n = ownerId then
          ⟨users, false, "Whitelist Management",
            "The bot owner is always authorized.", EMBED_COLOR_INFO⟩
        else if n ∉ users then
          ⟨users ++ [n], true, "Whitelist Management",
            "User ID `" ++ toString n ++ "` added to the whitelist.", EMBED_COLOR_SUCCESS⟩
        else
          ⟨users, false, "Whitelist Management",
            "User ID `" ++ toString n ++ "` is already in the whitelist.", EMBED_COLOR_INFO⟩
  else if action = "remove" then
    match user_id with
    | none => ⟨users, false, "Whitelist Management",
        "Invalid or missing User ID for 'remove' action.", EMBED_COLOR_ERROR⟩
    | some s =>
      if !pyIsdigit s then
        ⟨users, false, "Whitelist Management",
          "Invalid or missing User ID for 'remove' action.", EMBED_COLOR_ERROR⟩
      else
        let n : Int := (pyInt s : Nat)
        if n ∈ users then
          ⟨users.erase n, true, "Whitelist Management",
            "User ID `" ++ toString n ++ "` removed from the whitelist.", EMBED_COLOR_SUCCESS⟩
        else
          ⟨users, false, "Whitelist Management",
            "User ID `" ++ toString n ++ "` was not found in the whitelist.", EMBED_COLOR_INFO⟩
  else if action = "list" then
    if users.isEmpty then
      ⟨users, false, "Whitelist Management",
        "The whitelist is currently empty.", EMBED_COLOR_INFO⟩
    else
      ⟨users, false, "Whitelisted User IDs",
        String.intercalate "\n" (users.map (fun uid => "`" ++ toString uid ++ "`")),
        EMBED_COLOR_INFO⟩
  else
    ⟨users, false, "Whitelist Management", "An error occurred.", EMBED_COLOR_ERROR⟩

/-! ## Username resolution (`main.py` lines 110-122) -/

/-- Environment for `get_username_from_id`: `.err` is a
`requests.RequestException` (transport error, or a non-2xx status raised
by `raise_for_status` — both are caught); `.ok data` is the `data` array
of the JSON body, with each element's optional `name` field. -/
inductive LookupResp where
  | err
  | ok (data : List (Option String))
deriving Repr, DecidableEq

/-- `get_username_from_id` (lines 110-122). -/
def get_username_from_id (user_id : Nat) (resp : LookupResp) : String :=
  match resp with
  | .err => "ID: " ++ toString user_id
  | .ok [] => "ID: " ++ toString user_id
  | .ok (nameField :: _) => nameField.getD ("ID: " ++ toString user_id)

/-! ## `create_api_error_embed` (`main.py` lines 124-147)

The raw-error body field is omitted: no claim is about it. -/

def create_api_error_embed (e : ReqError) (requested_perm : String) : EmbedOut :=
  match e.response with
  | some r =>
    if r.status = 403 then
      ⟨"API Key Error (403 Forbidden)",
        "The bot's API Key does not have the **`" ++ requested_perm ++
          "`** permission for the DataStore API.", EMBED_COLOR_ERROR⟩
    else
      ⟨"API Request Failed",
        "An error occurred while contacting the Roblox API.", EMBED_COLOR_ERROR⟩
  | none =>
    ⟨"API Request Failed",
      "An error occurred while contacting the Roblox API.", EMBED_COLOR_ERROR⟩

/-! ## `banid` (`main.py` lines 295-331) -/

/-- A ban record as written to the DataStore (`ban_data`, lines 309-314). -/
structure BanRecord where
  Reason : String
  BannedBy : String
  Username : String
  Timestamp : Int
deriving Repr, DecidableEq

/-- Outcome of the DataStore write POST: an HTTP response with the given
status, or a transport-level `RequestException` with no response. -/
inductive WriteResp where
  | resp (status : Nat)
  | transportErr
deriving Repr, DecidableEq

/-- Result of `banid_cmd`: the record POSTed to the DataStore (`none`
when input validation stopped the command before any write was
attempted), and the reply embed. -/
structure BanidResult where
  written : Option BanRecord
  embed : EmbedOut
deriving Repr

/-- `banid_cmd` (lines 298-331).  `now` is `int(time.time())` at the
call; `lookup` is the environment of the `get_username_from_id` call;
`write` is the DataStore's response to the entry-write POST. -/
def banid_cmd (user_id reason actor_display_name : String) (lookup : LookupResp)
    (now : Int) (write : WriteResp) : BanidResult :=
  if !pyIsdigit user_id then
    ⟨none, ⟨"Invalid Input", "UserId must be a number.", EMBED_COLOR_ERROR⟩⟩
  else
    let user_id_int := pyInt user_id
    let username := get_username_from_id user_id_int lookup
    let ban_data : BanRecord :=
      { Reason := reason
        BannedBy := actor_display_name ++ " (Discord)"
        Username := username
        Timestamp := now }
    match write with
    | .transportErr => ⟨some ban_data, create_api_error_embed ⟨none⟩ "Write"⟩
    | .resp status =>
      if raiseForStatus status then
        ⟨some ban_data, create_api_error_embed ⟨some ⟨status⟩⟩ "Write"⟩
      else
        ⟨some ban_data,
          ⟨"User Banned (DataStore)",
            "Successfully banned **" ++ username ++ "** (`" ++ user_id ++ "`).",
            EMBED_COLOR_SUCCESS⟩⟩

/-! ## Model of the remote key-value store

The DataStore itself is Roblox infrastructure, not code of this
repository; for the round-trip claim it is modelled by its documented
point-write/point-read semantics (spec §6): a map from entry key to
record, where a write replaces the entry under its key. -/

def storePut (st : Nat → Option BanRecord) (k : Nat) (v : BanRecord) :
    Nat → Option BanRecord :=
  fun k2 => if k2 = k then some v else st k2

def storeGet (st : Nat → Option BanRecord) (k : Nat) : Option BanRecord := st k

/-! ## `unban` (`main.py` lines 384-415) -/

/-- Outcome of the DataStore DELETE call: an HTTP response with the
given status, or a transport-level `RequestException` (no response). -/
inductive DeleteResp where
  | resp (status : Nat)
  | transportErr
deriving Repr, DecidableEq

/-- `unban_cmd` (lines 387-415). -/
def unban_cmd (user_id : String) (del : DeleteResp) (lookup : LookupResp) : EmbedOut :=
  if !pyIsdigit user_id then
    ⟨"Invalid Input", "UserId must be a number.", EMBED_COLOR_ERROR⟩
  else
    match del with
    | .transportErr => create_api_error_embed ⟨none⟩ "Delete"
    | .resp status =>
      if status = 404 then
        ⟨"User Unbanned",
          "User `" ++ user_id ++ "` was not found in the ban list.", EMBED_COLOR_INFO⟩
      else if raiseForStatus status then
        create_api_error_embed ⟨some ⟨status⟩⟩ "Delete"
      else
        let username := get_username_from_id (pyInt user_id) lookup
        ⟨"User Unbanned (DataStore)",
          "Successfully unbanned **" ++ username ++ "** (`" ++ user_id ++ "`).",
          EMBED_COLOR_SUCCESS⟩

/-! ## `get_datastore_ban_list` (`main.py` lines 418-480)

Phase 1 pages through the key listing; phase 2 fetches each key's
record.  The key-listing endpoint is modelled by the list of responses
it returns to the successive requests of the `while True` loop, the
per-key endpoint by a function from key to fetch outcome, and
`datetime.fromtimestamp(..).strftime(..)` (library code) by a parameter
`fmtTime` (`none` = the call raised, which the code catches and turns
into `"???"`).  The outer `Option` is `none` when the response trace is
exhausted while the loop would issue another request (outside the
model); an `Except` value is the `(False, e)` / `(True, strings)` pair
the Python function returns. -/

/-- One JSON response of the key-listing endpoint: the `keys[]` entries'
`key` fields, and the `nextPageCursor` field (`none` = absent). -/
structure ListPage where
  keys : List String
  nextPageCursor : Option String
deriving Repr, DecidableEq

/-- A key-listing request outcome: a `RequestException` (transport error
or non-2xx raised by `raise_for_status`) or a parsed page. -/
inductive ListResp where
  | err (e : ReqError)
  | ok (page : ListPage)
deriving Repr, DecidableEq

/-- Python truthiness of the cursor: `if not next_cursor: break` fires
on an absent cursor and on an empty-string cursor. -/
def cursorFalsy : Option String → Bool
  | none => true
  | some s => s.data.isEmpty

/-- Phase 1 (lines 425-440): drain the key listing, accumulating keys,
until a response carries no (truthy) continuation cursor. -/
def list_keys_loop : List ListResp → List String → Option (Except ReqError (List String))
  | [], _ => none
  | .err e :: _, _ => some (.error e)
  | .ok page :: rest, acc =>
    let acc2 := acc ++ page.keys
    if cursorFalsy page.nextPageCursor then some (.ok acc2)
    else list_keys_loop rest acc2

/-- A ban record as read back from the DataStore: every field optional,
matching the `.get(...)` defaulted accesses of lines 457-460. -/
structure StoredBan where
  Username : Option String
  BannedBy : Option String
  Reason : Option String
  Timestamp : Option Int
deriving Repr, DecidableEq

/-- Outcome of one per-key record fetch (lines 449-456): 404 before
`raise_for_status`; a `RequestException`; a 2xx body that fails JSON
decoding; or a parsed record. -/
inductive FetchResult where
  | notFound
  | reqErr (e : ReqError)
  | badJson
  | ok (data : StoredBan)
deriving Repr, DecidableEq

/-- `date_str` computation (lines 462-465): `"???"` unless the timestamp
is present and truthy (nonzero) and `fromtimestamp/strftime` succeeds. -/
def banDateStr (fmtTime : Int → Option String) (timestamp : Option Int) : String :=
  match timestamp with
  | none => "???"
  | some t => if t = 0 then "???" else (fmtTime t).getD "???"

/-- The summary string for a successfully fetched record (lines 457-468). -/
def formatBanEntry (fmtTime : Int → Option String) (k : String) (d : StoredBan) : String :=
  let username := d.Username.getD ("ID: " ++ k)
  let banned_by := d.BannedBy.getD "Unknown"
  let reason := d.Reason.getD "No reason"
  let date_str := banDateStr fmtTime d.Timestamp
  "[" ++ date_str ++ "] **" ++ username ++ "** (By: " ++ banned_by ++ ") - *" ++ reason ++ "*"

/-- The error-marker entry for a listed key whose record fetch returned
404 (line 452). -/
def err404Entry (k : String) : String :=
  "[ERROR] Data for key `" ++ k ++ "` was not found (404)."

/-- The error-marker entry for a non-403 fetch failure (line 474). -/
def errFetchEntry (k : String) : String :=
  "[ERROR] Could not fetch data for key: `" ++ k ++ "`"

/-- The error-marker entry for a 2xx body that fails JSON decoding (line 477). -/
def errCorruptEntry (k : String) : String :=
  "[ERROR] Corrupted data for key: `" ++ k ++ "`"

/-- Whether a fetch outcome makes the loop abort (`return False, e` on a
403-carrying `RequestException`, line 471-472). -/
def fetchAborts : FetchResult → Bool
  | .reqErr e => is403 e
  | _ => false

/-- Phase 2 (lines 446-477): fetch each key in order, appending one
entry per key, failing fast on a 403. -/
def fetch_ban_entries (fmtTime : Int → Option String) (fetch : String → FetchResult) :
    List String → List String → Except ReqError (List String)
  | [], acc => .ok acc
  | k :: rest, acc =>
    match fetch k with
    | .notFound => fetch_ban_entries fmtTime fetch rest (acc ++ [err404Entry k])
    | .reqErr e =>
      if is403 e then .error e
      else fetch_ban_entries fmtTime fetch rest (acc ++ [errFetchEntry k])
    | .badJson => fetch_ban_entries fmtTime fetch rest (acc ++ [errCorruptEntry k])
    | .ok d => fetch_ban_entries fmtTime fetch rest (acc ++ [formatBanEntry fmtTime k d])

/-- `get_datastore_ban_list` (lines 418-480): phase 1, the
empty-key-list early return (lines 442-443), phase 2, and the final
`ban_list_strings.sort()` (line 479). -/
def get_datastore_ban_list (pages : List ListResp) (fmtTime : Int → Option String)
    (fetch : String → FetchResult) : Option (Except ReqError (List String)) :=
  match list_keys_loop pages [] with
  | none => none
  | some (.error e) => some (.error e)
  | some (.ok ban_keys) =>
    if ban_keys.isEmpty then some (.ok [])
    else
      match fetch_ban_entries fmtTime fetch ban_keys [] with
      | .error e => some (.error e)
      | .ok strs => some (.ok (strs.mergeSort (fun a b => a ≤ b)))

/-- The single output entry phase 2 appends for key `k` when its fetch
outcome does not abort the loop (spec-side helper for stating lemmas). -/
def entryFor (fmtTime : Int → Option String) (fetch : String → FetchResult)
    (k : String) : String :=
  match fetch k with
  | .notFound => err404Entry k
  | .reqErr _ => errFetchEntry k
  | .badJson => errCorruptEntry k
  | .ok d => formatBanEntry fmtTime k d

/-! ## Helper lemmas about the ban-list loops -/

/-- Phase 2 on a key list with no aborting fetch appends exactly one
entry per key, in key order. -/
theorem fetch_ban_entries_ok (fmtTime : Int → Option String) (fetch : String → FetchResult) :
    ∀ (keys acc : List String), (∀ k ∈ keys, fetchAborts (fetch k) = false) →
      fetch_ban_entries fmtTime fetch keys acc =
        .ok (acc ++ keys.map (entryFor fmtTime fetch))
  | [], acc, _ => by simp [fetch_ban_entries]
  | k :: rest, acc, h => by
    have hk : fetchAborts (fetch k) = false := h k (by simp)
    have hrest : ∀ k2 ∈ rest, fetchAborts (fetch k2) = false :=
      fun k2 hm => h k2 (by simp [hm])
    cases hf : fetch k with
    | notFound =>
      unfold fetch_ban_entries
      simp only [hf]
      rw [fetch_ban_entries_ok fmtTime fetch rest (acc ++ [err404Entry k]) hrest]
      simp [entryFor, hf]
    | reqErr e =>
      have h403 : is403 e = false := by
        have h2 := hk; rw [hf] at h2; simpa [fetchAborts] using h2
      unfold fetch_ban_entries
      simp only [hf, h403, Bool.false_eq_true, if_false]
      rw [fetch_ban_entries_ok fmtTime fetch rest (acc ++ [errFetchEntry k]) hrest]
      simp [entryFor, hf]
    | badJson =>
      unfold fetch_ban_entries
      simp only [hf]
      rw [fetch_ban_entries_ok fmtTime fetch rest (acc ++ [errCorruptEntry k]) hrest]
      simp [entryFor, hf]
    | ok d =>
      unfold fetch_ban_entries
      simp only [hf]
      rw [fetch_ban_entries_ok fmtTime fetch rest (acc ++ [formatBanEntry fmtTime k d]) hrest]
      simp [entryFor, hf]

/-- Phase 2 fails fast: the first 403-yielding key makes the whole loop
return the error, whatever was accumulated and whatever keys remain. -/
theorem fetch_ban_entries_fail_fast (fmtTime : Int → Option String)
    (fetch : String → FetchResult) (k : String) (e : ReqError)
    (hk : fetch k = .reqErr e) (h403 : is403 e = true) :
    ∀ (pre : List String), (∀ k2 ∈ pre, fetchAborts (fetch k2) = false) →
      ∀ (post acc : List String),
        fetch_ban_entries fmtTime fetch (pre ++ k :: post) acc = .error e
  | [], _, post, acc => by
    unfold fetch_ban_entries
    rw [List.nil_append] at *
    simp [hk, h403]
  | k2 :: rest, h, post, acc => by
    have hk2 : fetchAborts (fetch k2) = false := h k2 (by simp)
    have hrest : ∀ k3 ∈ rest, fetchAborts (fetch k3) = false :=
      fun k3 hm => h k3 (by simp [hm])
    rw [List.cons_append]
    cases hf : fetch k2 with
    | notFound =>
      unfold fetch_ban_entries
      simp only [hf]
      exact fetch_ban_entries_fail_fast fmtTime fetch k e hk h403 rest hrest post _
    | reqErr e2 =>
      have hno : is403 e2 = false := by
        have h2 := hk2; rw [hf] at h2; simpa [fetchAborts] using h2
      unfold fetch_ban_entries
      simp only [hf, hno, Bool.false_eq_true, if_false]
      exact fetch_ban_entries_fail_fast fmtTime fetch k e hk h403 rest hrest post _
    | badJson =>
      unfold fetch_ban_entries
      simp only [hf]
      exact fetch_ban_entries_fail_fast fmtTime fetch k e hk h403 rest hrest post _
    | ok d =>
      unfold fetch_ban_entries
      simp only [hf]
      exact fetch_ban_entries_fail_fast fmtTime fetch k e hk h403 rest hrest post _

/-- Phase 1 drains every page when all pages parse, every page but the
last carries a truthy cursor, and the last page's cursor is falsy: the
accumulated keys are the concatenation of all pages' keys. -/
theorem list_keys_loop_drain (last : ListPage)
    (hlast : cursorFalsy last.nextPageCursor = true) :
    ∀ (init : List ListPage), (∀ p ∈ init, cursorFalsy p.nextPageCursor = false) →
      ∀ acc : List String,
        list_keys_loop ((init ++ [last]).map ListResp.ok) acc =
          some (.ok (acc ++ ((init ++ [last]).map ListPage.keys).flatten))
  | [], _, acc => by
    simp [list_keys_loop, hlast]
  | p :: init, h, acc => by
    have hp : cursorFalsy p.nextPageCursor = false := h p (by simp)
    have hinit : ∀ q ∈ init, cursorFalsy q.nextPageCursor = false :=
      fun q hm => h q (by simp [hm])
    rw [List.cons_append, List.map_cons]
    unfold list_keys_loop
    rw [hp]
    simp only [Bool.false_eq_true, if_false]
    rw [list_keys_loop_drain last hlast init hinit (acc ++ p.keys)]
    simp

/-! ## Claim theorems -/

/-- C1, counterexample: the claim says the owner's identifier is never
removable from the whitelist collection (an informational no-op).  But
`manage_whitelist`'s remove branch has no owner check: starting from a
collection that contains the owner's identifier (owner `5`, collection
`[5]`, as an externally-edited whitelist file can produce), removing the
owner's own id deletes it from the collection, triggers a save, and
reports the success (not informational) outcome. -/
theorem whitelist_owner_remove_cex :
    (manage_whitelist 5 [5] "remove" (some "5")).users = [] ∧
    (manage_whitelist 5 [5] "remove" (some "5")).saved = true ∧
    (manage_whitelist 5 [5] "remove" (some "5")).color = EMBED_COLOR_SUCCESS := by
  refine ⟨?_, ?_, ?_⟩ <;> rfl

/-- C1 (amended): adding the owner's identifier is an informational
no-op, the add operation never introduces the owner's identifier into a
collection not already containing it, removing the owner's identifier is
an informational no-op whenever the owner is not present in the
collection (in particular in every state reachable through the add
operation), and the owner passes the `is_whitelisted` authorization
check whatever the collection contains. -/
theorem whitelist_owner_protection (ownerId : Int) (users : List Int) (s : String)
    (uid? : Option String) (hdig : pyIsdigit s = true) (hs : (pyInt s : Int) = ownerId)
    (hnot : ownerId ∉ users) :
    manage_whitelist ownerId users "add" (some s) =
      ⟨users, false, "Whitelist Management", "The bot owner is always authorized.",
        EMBED_COLOR_INFO⟩ ∧
    ownerId ∉ (manage_whitelist ownerId users "add" uid?).users ∧
    (manage_whitelist ownerId users "remove" (some s)).users = users ∧
    (manage_whitelist ownerId users "remove" (some s)).saved = false ∧
    (manage_whitelist ownerId users "remove" (some s)).color = EMBED_COLOR_INFO ∧
    is_whitelisted_check ownerId ownerId users = true := by
  have hadd : manage_whitelist ownerId users "add" (some s) =
      ⟨users, false, "Whitelist Management", "The bot owner is always authorized.",
        EMBED_COLOR_INFO⟩ := by
    simp [manage_whitelist, hdig, hs]
  have hrem : manage_whitelist ownerId users "remove" (some s) =
      ⟨users, false, "Whitelist Management",
        "User ID `" ++ toString ((pyInt s : Nat) : Int) ++ "` was not found in the whitelist.",
        EMBED_COLOR_INFO⟩ := by
    have hmem : ((pyInt s : Nat) : Int) ∉ users := by rw [hs]; exact hnot
    simp [manage_whitelist, hdig, hmem]
  have hpres : ownerId ∉ (manage_whitelist ownerId users "add" uid?).users := by
    cases uid? with
    | none => simpa [manage_whitelist] using hnot
    | some s2 =>
      by_cases hd2 : pyIsdigit s2 = true
      · by_cases ho2 : ((pyInt s2 : Nat) : Int) = ownerId
        · simpa [manage_whitelist, hd2, ho2] using hnot
        · by_cases hm2 : ((pyInt s2 : Nat) : Int) ∈ users
          · simpa [manage_whitelist, hd2, ho2, hm2] using hnot
          · have hne : ownerId ≠ ((pyInt s2 : Nat) : Int) := fun h => ho2 h.symm
            have hgoal : ownerId ∉ users ++ [((pyInt s2 : Nat) : Int)] := by
              simp [List.mem_append, hnot, hne]
            simpa [manage_whitelist, hd2, ho2, hm2] using hgoal
      · have hd2f : pyIsdigit s2 = false := by simpa using hd2
        simpa [manage_whitelist, hd2f] using hnot
  refine ⟨hadd, hpres, ?_, ?_, ?_, ?_⟩
  · rw [hrem]
  · rw [hrem]
  · rw [hrem]
  · simp [is_whitelisted_check]

/-- C1 witness: the amended theorem applied at owner `7`, collection
`[2]`, target `"7"`. -/
theorem whitelist_owner_protection_witness :
    manage_whitelist 7 [2] "add" (some "7") =
      ⟨[2], false, "Whitelist Management", "The bot owner is always authorized.",
        EMBED_COLOR_INFO⟩ ∧
    (7 : Int) ∉ (manage_whitelist 7 [2] "add" (some "2")).users ∧
    (manage_whitelist 7 [2] "remove" (some "7")).users = [2] ∧
    (manage_whitelist 7 [2] "remove" (some "7")).saved = false ∧
    (manage_whitelist 7 [2] "remove" (some "7")).color = EMBED_COLOR_INFO ∧
    is_whitelisted_check 7 7 [2] = true :=
  whitelist_owner_protection 7 [2] "7" (some "2") (by decide) (by decide) (by decide)

/-- C7: adding an identifier already present in the collection, or
removing one already absent, leaves the collection unchanged, triggers
no save, and reports an informational (`EMBED_COLOR_INFO`, not error)
outcome. -/
theorem whitelist_idempotent (ownerId : Int) (users : List Int) (s : String)
    (hdig : pyIsdigit s = true) :
    (((pyInt s : Nat) : Int) ∈ users →
      (manage_whitelist ownerId users "add" (some s)).users = users ∧
      (manage_whitelist ownerId users "add" (some s)).saved = false ∧
      (manage_whitelist ownerId users "add" (some s)).color = EMBED_COLOR_INFO) ∧
    (((pyInt s : Nat) : Int) ∉ users →
      (manage_whitelist ownerId users "remove" (some s)).users = users ∧
      (manage_whitelist ownerId users "remove" (some s)).saved = false ∧
      (manage_whitelist ownerId users "remove" (some s)).color = EMBED_COLOR_INFO) := by
  constructor
  · intro hmem
    by_cases ho : ((pyInt s : Nat) : Int) = ownerId
    · simp [manage_whitelist, hdig, ho]
    · simp [manage_whitelist, hdig, ho, hmem]
  · intro hmem
    simp [manage_whitelist, hdig, hmem]

/-- C7 witness: the idempotence theorem applied at owner `1`, collection
`[3]`, identifier `"3"` (add) and collection `[3]`, identifier `"4"`
(remove). -/
theorem whitelist_idempotent_witness :
    ((manage_whitelist 1 [3] "add" (some "3")).users = [3] ∧
      (manage_whitelist 1 [3] "add" (some "3")).saved = false ∧
      (manage_whitelist 1 [3] "add" (some "3")).color = EMBED_COLOR_INFO) ∧
    ((manage_whitelist 1 [3] "remove" (some "4")).users = [3] ∧
      (manage_whitelist 1 [3] "remove" (some "4")).saved = false ∧
      (manage_whitelist 1 [3] "remove" (some "4")).color = EMBED_COLOR_INFO) :=
  ⟨(whitelist_idempotent 1 [3] "3" (by decide)).1 (by decide),
   (whitelist_idempotent 1 [3] "4" (by decide)).2 (by decide)⟩

/-- C8: when the whitelist file is missing, empty, or fails JSON
parsing, `load_whitelist` returns the empty collection; every exception
these conditions can raise is caught inside `load_whitelist` (the
embedding is a total function on them), so nothing propagates to the
caller. -/
theorem load_whitelist_defaults_empty (file : Option String)
    (jsonLoads : String → Option JVal)
    (h : file = none ∨ ∃ c, file = some c ∧ (c.isEmpty = true ∨ jsonLoads c = none)) :
    load_whitelist file jsonLoads = JVal.arr [] := by
  rcases h with h | ⟨c, hc, h⟩
  · rw [h]; rfl
  · rcases h with h | h
    · rw [hc]; simp [load_whitelist, h]
    · rw [hc]
      by_cases he : c.isEmpty = true
      · simp [load_whitelist, he]
      · have hef : c.isEmpty = false := by simpa using he
        simp [load_whitelist, hef, h]

/-- C8 witness: the theorem applied to a missing file, and to an
unparseable non-empty file. -/
theorem load_whitelist_defaults_empty_witness :
    load_whitelist none (fun _ => some (JVal.num 3)) = JVal.arr [] ∧
    load_whitelist (some "not json") (fun _ => none) = JVal.arr [] :=
  ⟨load_whitelist_defaults_empty none (fun _ => some (JVal.num 3)) (Or.inl rfl),
   load_whitelist_defaults_empty (some "not json") (fun _ => none)
     (Or.inr ⟨"not json", rfl, Or.inr rfl⟩)⟩

/-- C5: for every unban invocation with a numeric identifier, a 404
response from the DataStore delete endpoint yields the informational
"User Unbanned" outcome — `EMBED_COLOR_INFO`, not the error color — so
the caller receives a non-error result. -/
theorem unban_notFound_success (user_id : String) (lookup : LookupResp)
    (hdig : pyIsdigit user_id = true) :
    (unban_cmd user_id (.resp 404) lookup).title = "User Unbanned" ∧
    (unban_cmd user_id (.resp 404) lookup).color = EMBED_COLOR_INFO ∧
    (unban_cmd user_id (.resp 404) lookup).color ≠ EMBED_COLOR_ERROR := by
  have h : unban_cmd user_id (.resp 404) lookup =
      ⟨"User Unbanned", "User `" ++ user_id ++ "` was not found in the ban list.",
        EMBED_COLOR_INFO⟩ := by
    simp [unban_cmd, hdig]
  rw [h]
  refine ⟨rfl, rfl, ?_⟩
  show EMBED_COLOR_INFO ≠ EMBED_COLOR_ERROR
  decide

/-- C5 witness: the theorem applied at identifier `"12345"` with a
lookup environment that errors (irrelevant on the 404 path). -/
theorem unban_notFound_success_witness :
    (unban_cmd "12345" (.resp 404) .err).title = "User Unbanned" ∧
    (unban_cmd "12345" (.resp 404) .err).color = EMBED_COLOR_INFO ∧
    (unban_cmd "12345" (.resp 404) .err).color ≠ EMBED_COLOR_ERROR :=
  unban_notFound_success "12345" .err (by decide)

/-- C10: for every banid invocation with a numeric identifier, a failed
username lookup (transport error or non-2xx raised by
`raise_for_status`, both `LookupResp.err`) or an empty `data` array
(`LookupResp.ok []`) does not prevent the ban: whatever the DataStore
write returns, the record POSTed to the store carries the fallback
username `"ID: <identifier>"`, with the other fields as usual. -/
theorem banid_lookup_failure_fallback (user_id reason actor : String)
    (lookup : LookupResp) (now : Int) (write : WriteResp)
    (hdig : pyIsdigit user_id = true) (hl : lookup = .err ∨ lookup = .ok []) :
    (banid_cmd user_id reason actor lookup now write).written =
      some ⟨reason, actor ++ " (Discord)", "ID: " ++ toString (pyInt user_id), now⟩ := by
  have hu : get_username_from_id (pyInt user_id) lookup =
      "ID: " ++ toString (pyInt user_id) := by
    rcases hl with h | h <;> rw [h] <;> rfl
  cases write with
  | transportErr => simp [banid_cmd, hdig, hu]
  | resp status =>
    by_cases hs : raiseForStatus status = true
    · simp [banid_cmd, hdig, hu, hs]
    · have hs2 : raiseForStatus status = false := by simpa using hs
      simp [banid_cmd, hdig, hu, hs2]

/-- C10 witness: the theorem applied at identifier `"12345"` with a
failing lookup and a 200 write response. -/
theorem banid_lookup_failure_fallback_witness :
    (banid_cmd "12345" "cheating" "Mod" .err 1700000000 (.resp 200)).written =
      some ⟨"cheating", "Mod (Discord)", "ID: " ++ toString (pyInt "12345"), 1700000000⟩ :=
  banid_lookup_failure_fallback "12345" "cheating" "Mod" .err 1700000000 (.resp 200)
    (by decide) (Or.inl rfl)

/-- C6, counterexample: the claim says the stored record's actor field
equals the call's actor input.  At identifier `"12345"`, reason
`"cheating"`, actor display name `"Alice"`, the call succeeds (success
embed) but the record written has `BannedBy = "Alice (Discord)"`, not
`"Alice"`: the code appends the literal `" (Discord)"` to the actor. -/
theorem banid_actor_field_cex :
    (banid_cmd "12345" "cheating" "Alice" .err 1000 (.resp 200)).embed.color =
      EMBED_COLOR_SUCCESS ∧
    ((banid_cmd "12345" "cheating" "Alice" .err 1000 (.resp 200)).written.map
      BanRecord.BannedBy) = some "Alice (Discord)" ∧
    "Alice (Discord)" ≠ "Alice" := by
  refine ⟨rfl, rfl, ?_⟩
  decide

/-- C6 (amended): for every successful `banid(id, reason, actor)` call,
the record written under the identifier has `Reason` equal to the reason
input, `BannedBy` equal to the actor input with `" (Discord)"` appended,
`Username` equal to the resolved username for the identifier, and
`Timestamp` equal to the call time; writing it into a point-read/write
store and immediately fetching the identifier's key returns exactly that
record. -/
theorem banid_roundtrip (user_id reason actor : String) (lookup : LookupResp)
    (now : Int) (status : Nat) (st : Nat → Option BanRecord)
    (hdig : pyIsdigit user_id = true) (hok : raiseForStatus status = false) :
    ∃ r : BanRecord,
      (banid_cmd user_id reason actor lookup now (.resp status)).written = some r ∧
      (banid_cmd user_id reason actor lookup now (.resp status)).embed.color =
        EMBED_COLOR_SUCCESS ∧
      r.Reason = reason ∧
      r.BannedBy = actor ++ " (Discord)" ∧
      r.Username = get_username_from_id (pyInt user_id) lookup ∧
      r.Timestamp = now ∧
      storeGet (storePut st (pyInt user_id) r) (pyInt user_id) = some r := by
  refine ⟨⟨reason, actor ++ " (Discord)",
    get_username_from_id (pyInt user_id) lookup, now⟩, ?_, ?_, rfl, rfl, rfl, rfl, ?_⟩
  · simp [banid_cmd, hdig, hok]
  · simp [banid_cmd, hdig, hok]
  · simp [storeGet, storePut]

/-- C6 witness: the amended round-trip theorem applied at identifier
`"12345"`, reason `"cheating"`, actor `"Alice"`, an empty store and a
200 write response. -/
theorem banid_roundtrip_witness :
    ∃ r : BanRecord,
      (banid_cmd "12345" "cheating" "Alice" .err 1000 (.resp 200)).written = some r ∧
      (banid_cmd "12345" "cheating" "Alice" .err 1000 (.resp 200)).embed.color =
        EMBED_COLOR_SUCCESS ∧
      r.Reason = "cheating" ∧
      r.BannedBy = "Alice" ++ " (Discord)" ∧
      r.Username = get_username_from_id (pyInt "12345") .err ∧
      r.Timestamp = 1000 ∧
      storeGet (storePut (fun _ => none) (pyInt "12345") r) (pyInt "12345") = some r :=
  banid_roundtrip "12345" "cheating" "Alice" .err 1000 200 (fun _ => none)
    (by decide) (by decide)

/-- C2: if the key-listing phase succeeded and some per-key fetch in the
second phase raises a permission-denied (403) `RequestException` — with
every earlier key's fetch non-aborting — the whole operation returns the
failure `(False, e)` alone: none of the summary strings accumulated
before that point appear in the result. -/
theorem banlist_403_fail_fast (pages : List ListResp) (fmtTime : Int → Option String)
    (fetch : String → FetchResult) (pre : List String) (k : String)
    (post : List String) (e : ReqError)
    (hkeys : list_keys_loop pages [] = some (.ok (pre ++ k :: post)))
    (hpre : ∀ k2 ∈ pre, fetchAborts (fetch k2) = false)
    (hk : fetch k = .reqErr e) (h403 : is403 e = true) :
    get_datastore_ban_list pages fmtTime fetch = some (.error e) := by
  have hrun := fetch_ban_entries_fail_fast fmtTime fetch k e hk h403 pre hpre post []
  have hne : (pre ++ k :: post).isEmpty = false := by simp
  simp only [get_datastore_ban_list, hkeys, hne, Bool.false_eq_true, if_false, hrun]

/-- C2 witness: one page listing keys `["a", "b"]`; `"a"` fetches fine,
`"b"` fetches a 403. -/
theorem banlist_403_fail_fast_witness :
    get_datastore_ban_list [ListResp.ok ⟨["a", "b"], none⟩] (fun _ => none)
      (fun k => if k = "b" then .reqErr ⟨some ⟨403⟩⟩ else .ok ⟨none, none, none, none⟩) =
      some (.error ⟨some ⟨403⟩⟩) :=
  banlist_403_fail_fast [ListResp.ok ⟨["a", "b"], none⟩] (fun _ => none)
    (fun k => if k = "b" then .reqErr ⟨some ⟨403⟩⟩ else .ok ⟨none, none, none, none⟩)
    ["a"] "b" [] ⟨some ⟨403⟩⟩ rfl (by decide) (by decide) (by decide)

/-- C3: a key returned by the listing phase whose record fetch returns
404 contributes the distinct `[ERROR] ... was not found (404).` marker
entry to the output, without aborting the listing: provided no fetch is
a 403, the run still succeeds and the output holds exactly one entry per
listed key. -/
theorem banlist_404_marker (pages : List ListResp) (fmtTime : Int → Option String)
    (fetch : String → FetchResult) (keys : List String) (k0 : String)
    (hkeys : list_keys_loop pages [] = some (.ok keys))
    (hnoabort : ∀ k ∈ keys, fetchAborts (fetch k) = false)
    (hk0 : k0 ∈ keys) (h404 : fetch k0 = .notFound) :
    ∃ l, get_datastore_ban_list pages fmtTime fetch = some (.ok l) ∧
      err404Entry k0 ∈ l ∧ l.length = keys.length := by
  have hrun := fetch_ban_entries_ok fmtTime fetch keys [] hnoabort
  have hne : keys.isEmpty = false := by
    cases keys with
    | nil => simp at hk0
    | cons a t => simp
  refine ⟨(keys.map (entryFor fmtTime fetch)).mergeSort (fun a b => a ≤ b), ?_, ?_, ?_⟩
  · simp only [get_datastore_ban_list, hkeys, hne, Bool.false_eq_true, if_false, hrun]
    simp
  · rw [List.mem_mergeSort]
    exact List.mem_map.mpr ⟨k0, hk0, by simp [entryFor, h404]⟩
  · rw [List.length_mergeSort, List.length_map]

/-- C3 witness: one page listing keys `["x", "y"]`; `"x"` fetches a 404,
`"y"` fetches a record. -/
theorem banlist_404_marker_witness :
    ∃ l, get_datastore_ban_list [ListResp.ok ⟨["x", "y"], none⟩] (fun _ => none)
        (fun k => if k = "x" then .notFound else .ok ⟨none, none, none, none⟩) =
        some (.ok l) ∧
      err404Entry "x" ∈ l ∧ l.length = (["x", "y"] : List String).length :=
  banlist_404_marker [ListResp.ok ⟨["x", "y"], none⟩] (fun _ => none)
    (fun k => if k = "x" then .notFound else .ok ⟨none, none, none, none⟩)
    ["x", "y"] "x" rfl (by decide) (by decide) (by decide)

/-- C4: against a listing endpoint answering with pages that all carry a
truthy continuation cursor except the last, phase 1 is fully drained —
it stops exactly on the cursorless page — and accumulates the
concatenation of all pages' keys; the per-key phase then (absent any
aborting 403) produces output in bijection (a permutation of one entry
per key) with the union of all pages' keys. -/
theorem banlist_pagination (init : List ListPage) (last : ListPage)
    (fmtTime : Int → Option String) (fetch : String → FetchResult)
    (hinit : ∀ p ∈ init, cursorFalsy p.nextPageCursor = false)
    (hlast : cursorFalsy last.nextPageCursor = true)
    (hnoabort : ∀ k ∈ ((init ++ [last]).map ListPage.keys).flatten,
      fetchAborts (fetch k) = false) :
    list_keys_loop ((init ++ [last]).map ListResp.ok) [] =
      some (.ok (((init ++ [last]).map ListPage.keys).flatten)) ∧
    ∃ l, get_datastore_ban_list ((init ++ [last]).map ListResp.ok) fmtTime fetch =
        some (.ok l) ∧
      l.Perm ((((init ++ [last]).map ListPage.keys).flatten).map
        (entryFor fmtTime fetch)) := by
  have hdrain := list_keys_loop_drain last hlast init hinit []
  rw [List.nil_append] at hdrain
  refine ⟨hdrain, ?_⟩
  by_cases hne : (((init ++ [last]).map ListPage.keys).flatten).isEmpty = true
  · have hkeq : ((init ++ [last]).map ListPage.keys).flatten = [] := by
      simpa using hne
    refine ⟨[], ?_, ?_⟩
    · simp only [get_datastore_ban_list, hdrain, hne, if_true]
    · rw [hkeq]
      simp
  · have hne2 : (((init ++ [last]).map ListPage.keys).flatten).isEmpty = false := by
      simpa using hne
    have hrun := fetch_ban_entries_ok fmtTime fetch
      (((init ++ [last]).map ListPage.keys).flatten) [] hnoabort
    refine ⟨((((init ++ [last]).map ListPage.keys).flatten).map
      (entryFor fmtTime fetch)).mergeSort (fun a b => a ≤ b), ?_, ?_⟩
    · simp only [get_datastore_ban_list, hdrain, hne2, Bool.false_eq_true, if_false, hrun]
      simp
    · exact List.mergeSort_perm _ _

/-- C4 witness: two pages — keys `["a"]` with cursor `"cur"`, then keys
`["b"]` with no cursor — and a fetch that always succeeds. -/
theorem banlist_pagination_witness :
    list_keys_loop (([(⟨["a"], some "cur"⟩ : ListPage)] ++
        [(⟨["b"], none⟩ : ListPage)]).map ListResp.ok) [] =
      some (.ok ((([(⟨["a"], some "cur"⟩ : ListPage)] ++
        [(⟨["b"], none⟩ : ListPage)]).map ListPage.keys).flatten)) ∧
    ∃ l, get_datastore_ban_list (([(⟨["a"], some "cur"⟩ : ListPage)] ++
          [(⟨["b"], none⟩ : ListPage)]).map ListResp.ok) (fun _ => none)
        (fun _ => FetchResult.ok ⟨none, none, none, none⟩) = some (.ok l) ∧
      l.Perm (((([(⟨["a"], some "cur"⟩ : ListPage)] ++
        [(⟨["b"], none⟩ : ListPage)]).map ListPage.keys).flatten).map
          (entryFor (fun _ => none) (fun _ => FetchResult.ok ⟨none, none, none, none⟩))) :=
  banlist_pagination [⟨["a"], some "cur"⟩] ⟨["b"], none⟩ (fun _ => none)
    (fun _ => FetchResult.ok ⟨none, none, none, none⟩) (by decide) (by decide) (by decide)

/-- C9: every successful `get_datastore_ban_list` run returns its
summary strings sorted lexicographically (by the rendered string itself,
under the string order). -/
theorem banlist_output_sorted (pages : List ListResp) (fmtTime : Int → Option String)
    (fetch : String → FetchResult) (l : List String)
    (h : get_datastore_ban_list pages fmtTime fetch = some (.ok l)) :
    l.Sorted (· ≤ ·) := by
  unfold get_datastore_ban_list at h
  cases hk : list_keys_loop pages [] with
  | none => rw [hk] at h; simp at h
  | some res =>
    rw [hk] at h
    cases res with
    | error e => simp at h
    | ok keys =>
      by_cases hne : keys.isEmpty = true
      · simp only [hne, if_true, Option.some.injEq, Except.ok.injEq] at h
        rw [← h]
        exact List.sorted_nil
      · have hne2 : keys.isEmpty = false := by simpa using hne
        simp only [hne2, Bool.false_eq_true, if_false] at h
        cases hf : fetch_ban_entries fmtTime fetch keys [] with
        | error e => rw [hf] at h; simp at h
        | ok strs =>
          rw [hf] at h
          simp only [Option.some.injEq, Except.ok.injEq] at h
          rw [← h]
          have hp := @List.sorted_mergeSort String (fun a b => a ≤ b)
            (fun a b c h1 h2 => by
              simp only [decide_eq_true_eq] at h1 h2 ⊢
              exact le_trans h1 h2)
            (fun a b => by
              simp only [Bool.or_eq_true, decide_eq_true_eq]
              exact le_total a b) strs
          exact List.Pairwise.imp (fun hab => by simpa using hab) hp

/-- C9 witness: one page with the single key `"k"`, whose fetch returns
404; the output is the singleton marker list, which the theorem shows is
sorted. -/
theorem banlist_output_sorted_witness :
    List.Sorted (· ≤ ·) [err404Entry "k"] :=
  banlist_output_sorted [ListResp.ok ⟨["k"], none⟩] (fun _ => none)
    (fun _ => .notFound) [err404Entry "k"]
    (by simp [get_datastore_ban_list, list_keys_loop, fetch_ban_entries, cursorFalsy])

end Taurus
